import Mathlib

/-
Formal model of the expense-tracker web application in `src/app.py`
(repository pavanshetty38/expense_tracker_render).

Modelling conventions:
- Monetary amounts (Python floats) are modelled as rationals `ℚ`; the
  spec's numeric properties are stated "within rounding tolerance", so
  exact rational arithmetic is the intended reading.
- Calendar dates are modelled as abstract day ordinals `Nat`; `isoformat`
  becomes an injective decimal rendering.  Nothing in the claims inspects
  the concrete date text.
- The database is modelled as an in-order list of `Expense` rows; the SQL
  queries `filter_by(user_id=...)`, `func.sum`, `order_by(date.desc())`
  and `limit(50)` become `List.filter`, list sum, a sort by descending
  date, and `List.take 50`.
- The SMTP session of `send_email` is modelled by a `SmtpOutcome`
  parameter describing what the gateway does on this call; the Python
  `try/except` that swallows every transport exception makes `send_email`
  a total function returning `Bool` (`False` on skip or failure), which
  is exactly what the code's caller observes.
-/

namespace ExpenseApp

/-- Model of the `User` table (app.py lines 23-27): id, unique email,
password hash, and `budget` with column default `0.0`. -/
structure User where
  id : Nat
  email : String
  password : String
  budget : ℚ
deriving DecidableEq

/-- Model of the `Expense` table (app.py lines 29-35): owning user id,
amount, category, note, date. -/
structure Expense where
  user_id : Nat
  amount : ℚ
  category : String
  note : String
  date : Nat
deriving DecidableEq

/-- Expense-row constructor, as used at app.py line 120
(`Expense(user_id=..., amount=..., category=..., note=...)` with `date`
defaulting to the request day). -/
def mkExpense (uid : Nat) (amount : ℚ) (category note : String) (date : Nat) : Expense :=
  { user_id := uid, amount := amount, category := category, note := note, date := date }

/-- An email handed to the notification gateway. -/
structure Email where
  to_email : String
  subject : String
  body : String
deriving DecidableEq

/-- The `MAIL_*` environment configuration read by `send_email`
(app.py lines 48-55).  `mail_server = none` models an unset
`MAIL_SERVER`. -/
structure MailConfig where
  mail_server : Option String
  mail_port : Nat
  mail_username : String
  mail_password : String
  use_tls : Bool
deriving DecidableEq

/-- What the SMTP transport does on one call: successful delivery, or any
of the exceptions that can escape the `smtplib` session (connection
refused / unreachable host, authentication failure, any other transport
error). -/
inductive SmtpOutcome where
  | delivered
  | connectionError
  | authError
  | transportError (msg : String)
deriving DecidableEq

/-- Model of `send_email` (app.py lines 45-71).  If `MAIL_SERVER` is not
configured the function skips and returns `False` (lines 49-51);
otherwise the whole SMTP session sits inside `try/except Exception`, so
any transport outcome other than delivery is caught and the function
returns `False` (lines 61-71).  The function is total: no outcome makes
it fail. -/
def send_email (cfg : MailConfig) (gw : SmtpOutcome) (to_email subject body : String) : Bool :=
  match cfg.mail_server with
  | none => false
  | some _ =>
    match gw with
    | .delivered => true
    | .connectionError => false
    | .authError => false
    | .transportError _ => false

/-- User creation on the registration path (app.py line 87):
`User(email=..., password=...)` leaves `budget` at its column default
`0.0`. -/
def register (id : Nat) (email password : String) : User :=
  { id := id, email := email, password := password, budget := 0 }

/-- Model of the `set_budget` handler (app.py lines 154-161):
`current_user.budget = float(request.form.get('budget', 0))`, stored
as-is with no validation. -/
def set_budget (u : User) (b : ℚ) : User :=
  { u with budget := b }

/-- The ledger sum used by the alert check (app.py line 125):
`db.session.query(func.sum(Expense.amount)).filter_by(user_id=...)`,
with `or 0` mapping an empty result to `0` — i.e. the exact, unrounded
sum of the user's expense amounts. -/
def ledgerSum (uid : Nat) (ledger : List Expense) : ℚ :=
  ((ledger.filter (fun e => e.user_id == uid)).map (fun e => e.amount)).sum

/-- Python `round(x, 2)` on a rational: round to 2 decimal places. -/
def round2 (q : ℚ) : ℚ :=
  ((round (q * 100) : ℤ) : ℚ) / 100

/-- Python `round(x, 1)` on a rational: round to 1 decimal place
(used only when rendering `percent_used`, app.py line 152). -/
def round1 (q : ℚ) : ℚ :=
  ((round (q * 10) : ℤ) : ℚ) / 10

/-- Python string slicing `s[:n]`: the first `n` characters. -/
def pySlice (s : String) (n : Nat) : String :=
  ⟨s.data.take n⟩

/-- Rendering of a date ordinal (`date.isoformat()` in the source); the
claims never inspect the concrete text, only line lengths, so a decimal
rendering of the ordinal stands in for the ISO text. -/
def dateIso (d : Nat) : String :=
  toString d

/-- The `:.2f` currency format used in email bodies and report lines. -/
def fmt2 (q : ℚ) : String :=
  (if round (q * 100) < 0 then "-" else "")
    ++ toString ((round (q * 100) : ℤ).natAbs / 100)
    ++ "."
    ++ (if (round (q * 100) : ℤ).natAbs % 100 < 10 then "0" else "")
    ++ toString ((round (q * 100) : ℤ).natAbs % 100)

/-- One `defaultdict(float)` update `cat[c] += a` (app.py line 138) on an
insertion-ordered association list: add to the existing entry for `c`,
or append a new entry at the end (first-seen order). -/
def addToCat (acc : List (String × ℚ)) (c : String) (a : ℚ) : List (String × ℚ) :=
  match acc with
  | [] => [(c, a)]
  | (k, v) :: rest =>
    if k = c then (k, v + a) :: rest else (k, v) :: addToCat rest c a

/-- The category-totals dictionary built by the loop at app.py
lines 136-138: fold every expense into the insertion-ordered map. -/
def catTotals (expenses : List Expense) : List (String × ℚ) :=
  expenses.foldl (fun acc e => addToCat acc e.category e.amount) []

/-- `defaultdict` lookup `cat[k]` as used at app.py line 140: the stored
total for `k`, or `0` when `k` has no entry (the placeholder case). -/
def lookupC (acc : List (String × ℚ)) (k : String) : ℚ :=
  ((acc.find? (fun p => p.1 == k)).map Prod.snd).getD 0

/-- The values computed by the dashboard GET branch (app.py
lines 133-152) and passed to the template. `percent_used` holds the raw
line-144 value; the template receives `round1` of it (line 152), see
`rendered_percent_used`. -/
structure DashView where
  categories : List String
  values : List ℚ
  total_spent : ℚ
  budget : ℚ
  remaining : ℚ
  percent_used : ℚ
deriving DecidableEq

/-- The aggregation of app.py lines 136-144, as a function of the
current user's expense rows:
`categories = list(cat.keys()) or ['No expenses']`,
`values = [round(cat[k], 2) for k in categories]`,
`total_spent = sum(values)`, `budget = current_user.budget or 0`,
`remaining = budget - total_spent`,
`percent_used = total_spent / budget * 100 if budget > 0 else 0`. -/
def dashboard_agg (u : User) (expenses : List Expense) : DashView :=
  let cat := catTotals expenses
  let categories := if (cat.map Prod.fst).isEmpty then ["No expenses"] else cat.map Prod.fst
  let values := categories.map (fun k => round2 (lookupC cat k))
  let total_spent := values.sum
  let budget := u.budget
  let remaining := budget - total_spent
  let percent_used := if 0 < budget then total_spent / budget * 100 else 0
  { categories := categories, values := values, total_spent := total_spent,
    budget := budget, remaining := remaining, percent_used := percent_used }

/-- The GET branch of `dashboard` (app.py lines 133-152): read the
current user's expenses from the ledger and aggregate them. -/
def dashboard_get (u : User) (ledger : List Expense) : DashView :=
  dashboard_agg u (ledger.filter (fun e => e.user_id == u.id))

/-- The `percent_used` value actually handed to the template
(app.py line 152: `round(percent_used, 1)`). -/
def rendered_percent_used (v : DashView) : ℚ :=
  round1 v.percent_used

/-- The budget-alert decision of app.py lines 124-131, as a function of
the user and the post-insertion ledger: under the guard
`current_user.budget and current_user.budget > 0`, recompute
`total_spent` from the ledger, form `remaining = budget - total_spent`,
and when `remaining / budget <= 0.20` construct exactly the one warning
email of lines 129-131. -/
def budget_alert (u : User) (ledger : List Expense) : List Email :=
  if u.budget ≠ 0 ∧ 0 < u.budget then
    if (u.budget - ledgerSum u.id ledger) / u.budget ≤ 0.20 then
      [{ to_email := u.email,
         subject := "Budget Alert — less than 20% remaining",
         body := "Hi, your remaining budget is ₹" ++ fmt2 (u.budget - ledgerSum u.id ledger)
                  ++ " which is ≤20% of your original budget." }]
    else []
  else []

/-- The observable outcome of one POST to `dashboard`: the ledger after
the commit, the alert emails constructed, the gateway results for each
(discarded by the code), and the HTTP response. -/
structure PostResult where
  ledger : List Expense
  emails : List Email
  sendResults : List Bool
  response : String
deriving DecidableEq

/-- The POST branch of `dashboard` (app.py lines 115-132): append the
new expense to the ledger (lines 120-122, committed first), run the
budget-alert decision against the recomputed post-insertion total
(lines 124-131) handing any constructed email to `send_email` whose
result is discarded, and unconditionally redirect to the dashboard
(line 132). -/
def dashboard_post (u : User) (amount : ℚ) (category note : String) (date : Nat)
    (ledger : List Expense) (cfg : MailConfig) (gw : SmtpOutcome) : PostResult :=
  let expense := mkExpense u.id amount category note date
  let ledger1 := ledger ++ [expense]
  let emails := budget_alert u ledger1
  { ledger := ledger1,
    emails := emails,
    sendResults := emails.map (fun m => send_email cfg gw m.to_email m.subject m.body),
    response := "redirect:dashboard" }

/-- The full text of one report body line before truncation
(app.py line 177): `date | category | ₹amount | note`. -/
def lineOf (e : Expense) : String :=
  dateIso e.date ++ " | " ++ e.category ++ " | ₹" ++ fmt2 e.amount ++ " | " ++ e.note

/-- One iteration of the PDF body loop (app.py lines 176-182) on the
canvas state `(finished pages, current page lines, y)`: draw the line
truncated to 90 characters at the current `y`, decrement `y` by the line
height 20, and when `y` drops below 50 start a new page at `y = 750`. -/
def pdfStep (st : List (List String) × List String × ℤ) (e : Expense) :
    List (List String) × List String × ℤ :=
  match st with
  | (pages, cur, y) =>
    if y - 20 < 50 then (pages ++ [cur ++ [pySlice (lineOf e) 90]], [], 750)
    else (pages, cur ++ [pySlice (lineOf e) 90], y - 20)

/-- The two header lines drawn at `y = 750` and `y = 720`
(app.py lines 170-174). -/
def headerLines (u : User) (today : String) : List String :=
  ["Expense Report for " ++ u.email, "Date: " ++ today]

/-- Model of `export_pdf` (app.py lines 163-186) as the list of pages of
text lines it draws: headers at `y = 750` and `720` leave the body
cursor at `y = 690`; the user's expenses are read most-recent-first
capped at 50 (line 175) and folded through the body loop; the final
`p.showPage()` (line 183) emits the page in progress. -/
def report_pages (u : User) (today : String) (expenses : List Expense) : List (List String) :=
  let taken := (List.insertionSort (fun a b => b.date ≤ a.date) expenses).take 50
  let r := taken.foldl pdfStep ([], headerLines u today, (690 : ℤ))
  r.1 ++ [r.2.1]

/-- The `export_pdf` route: render the report for the current user's
rows of the shared ledger. -/
def export_pdf (u : User) (today : String) (ledger : List Expense) : List (List String) :=
  report_pages u today (ledger.filter (fun e => e.user_id == u.id))

/-- Concrete user with budget 1000 for witnesses. -/
def user1000 : User :=
  { id := 1, email := "a@b.c", password := "hash", budget := 1000 }

/-- Concrete user with budget 100 for witnesses. -/
def user100 : User :=
  { id := 1, email := "a@b.c", password := "hash", budget := 100 }

/-- Concrete user with budget 0 for witnesses. -/
def user0 : User :=
  { id := 1, email := "a@b.c", password := "hash", budget := 0 }

/-- An empty mail configuration (`MAIL_SERVER` unset). -/
def cfg0 : MailConfig :=
  { mail_server := none, mail_port := 587, mail_username := "", mail_password := "",
    use_tls := true }

/-- A ledger of 60 expenses all owned by user 1, for the report-export
witness. -/
def bigLedger : List Expense :=
  (List.range 60).map (fun i => mkExpense 1 10 "Food" "" i)

/-- Two tiny expenses in distinct categories owned by user 1: the input
on which the displayed total differs from the rounded raw sum. -/
def tinyLedger : List Expense :=
  [mkExpense 1 (4/1000) "A" "" 0, mkExpense 1 (4/1000) "B" "" 0]

end ExpenseApp

namespace ExpenseApp

/-! Helper lemmas about the category aggregation. -/

theorem sum_snd_addToCat (acc : List (String × ℚ)) (c : String) (a : ℚ) :
    ((addToCat acc c a).map Prod.snd).sum = (acc.map Prod.snd).sum + a := by
  induction acc with
  | nil => simp [addToCat]
  | cons p rest ih =>
    obtain ⟨k, v⟩ := p
    by_cases h : k = c
    · simp [addToCat, h]
      ring
    · simp [addToCat, h, ih]
      ring

theorem sum_snd_foldCat (es : List Expense) :
    ∀ acc : List (String × ℚ),
      ((es.foldl (fun acc e => addToCat acc e.category e.amount) acc).map Prod.snd).sum
        = (acc.map Prod.snd).sum + (es.map (fun e => e.amount)).sum := by
  induction es with
  | nil => intro acc; simp
  | cons e es ih =>
    intro acc
    simp only [List.foldl_cons, List.map_cons, List.sum_cons]
    rw [ih, sum_snd_addToCat]
    ring

theorem sum_snd_catTotals (es : List Expense) :
    ((catTotals es).map Prod.snd).sum = (es.map (fun e => e.amount)).sum := by
  simpa using sum_snd_foldCat es []

theorem mem_keys_addToCat {acc : List (String × ℚ)} {c x : String} {a : ℚ}
    (h : x ∈ (addToCat acc c a).map Prod.fst) :
    x ∈ acc.map Prod.fst ∨ x = c := by
  induction acc with
  | nil => simpa [addToCat] using h
  | cons p rest ih =>
    obtain ⟨k, v⟩ := p
    simp only [List.map_cons, List.mem_cons]
    by_cases hk : k = c
    · simp only [addToCat, if_pos hk, List.map_cons, List.mem_cons] at h
      tauto
    · simp only [addToCat, if_neg hk, List.map_cons, List.mem_cons] at h
      rcases h with h | h
      · tauto
      · rcases ih h with h' | h' <;> tauto

theorem nodup_keys_addToCat {acc : List (String × ℚ)} {c : String} {a : ℚ}
    (h : (acc.map Prod.fst).Nodup) :
    ((addToCat acc c a).map Prod.fst).Nodup := by
  induction acc with
  | nil => simp [addToCat]
  | cons p rest ih =>
    obtain ⟨k, v⟩ := p
    simp only [List.map_cons, List.nodup_cons] at h
    by_cases hk : k = c
    · simp only [addToCat, hk, if_pos, List.map_cons, List.nodup_cons]
      exact ⟨hk ▸ h.1, h.2⟩
    · simp only [addToCat, if_neg hk, List.map_cons, List.nodup_cons]
      refine ⟨fun hmem => ?_, ih h.2⟩
      rcases mem_keys_addToCat hmem with h' | h'
      · exact h.1 h'
      · exact hk h'

theorem nodup_keys_foldCat (es : List Expense) :
    ∀ acc : List (String × ℚ), (acc.map Prod.fst).Nodup →
      ((es.foldl (fun acc e => addToCat acc e.category e.amount) acc).map Prod.fst).Nodup := by
  induction es with
  | nil => intro acc h; simpa using h
  | cons e es ih =>
    intro acc h
    exact ih _ (nodup_keys_addToCat h)

theorem nodup_keys_catTotals (es : List Expense) :
    ((catTotals es).map Prod.fst).Nodup :=
  nodup_keys_foldCat es [] (by simp)

theorem map_lookupC_keys (acc : List (String × ℚ)) (h : (acc.map Prod.fst).Nodup) :
    (acc.map Prod.fst).map (fun k => lookupC acc k) = acc.map Prod.snd := by
  induction acc with
  | nil => rfl
  | cons p rest ih =>
    obtain ⟨k0, v0⟩ := p
    simp only [List.map_cons, List.nodup_cons] at h
    simp only [List.map_cons]
    congr 1
    · show ((List.find? (fun p => p.1 == k0) ((k0, v0) :: rest)).map Prod.snd).getD 0 = v0
      rw [List.find?_cons_of_pos _ (by simp)]
      rfl
    · have htail : ∀ x ∈ rest.map Prod.fst,
          lookupC ((k0, v0) :: rest) x = lookupC rest x := by
        intro x hx
        have hne : ¬ ((fun p : String × ℚ => p.1 == x) (k0, v0)) = true := by
          simp only [beq_iff_eq]
          intro heq
          exact h.1 (heq ▸ hx)
        show ((List.find? (fun p => p.1 == x) ((k0, v0) :: rest)).map Prod.snd).getD 0
            = ((List.find? (fun p => p.1 == x) rest).map Prod.snd).getD 0
        rw [@List.find?_cons_of_neg _ (fun p => p.1 == x) (k0, v0) rest hne]
      rw [List.map_congr_left htail, ih h.2]

theorem total_spent_dashboard_agg (u : User) (es : List Expense) :
    (dashboard_agg u es).total_spent
      = ((catTotals es).map (fun p => round2 p.2)).sum := by
  by_cases h : catTotals es = []
  · simp [dashboard_agg, h, lookupC, round2]
  · have hne : ((catTotals es).map Prod.fst).isEmpty = false := by
      simp [List.isEmpty_iff, h]
    have hmap : ((catTotals es).map Prod.fst).map (fun k => round2 (lookupC (catTotals es) k))
        = (catTotals es).map (fun p => round2 p.2) := by
      calc ((catTotals es).map Prod.fst).map (fun k => round2 (lookupC (catTotals es) k))
          = (((catTotals es).map Prod.fst).map (fun k => lookupC (catTotals es) k)).map round2 :=
            (List.map_map round2 (fun k => lookupC (catTotals es) k) _).symm
        _ = ((catTotals es).map Prod.snd).map round2 := by
            rw [map_lookupC_keys _ (nodup_keys_catTotals es)]
        _ = (catTotals es).map (fun p => round2 p.2) :=
            List.map_map round2 Prod.snd _
    simp only [dashboard_agg, hne, Bool.false_eq_true, if_false, hmap]

theorem categories_dashboard_agg_nil (u : User) (es : List Expense)
    (h : catTotals es = []) :
    (dashboard_agg u es).categories = ["No expenses"] := by
  simp [dashboard_agg, h]

theorem categories_dashboard_agg_ne (u : User) (es : List Expense)
    (h : catTotals es ≠ []) :
    (dashboard_agg u es).categories = (catTotals es).map Prod.fst := by
  have hne : ((catTotals es).map Prod.fst).isEmpty = false := by
    simp [List.isEmpty_iff, h]
  simp [dashboard_agg, hne]

theorem round2_sub_le (q : ℚ) : |round2 q - q| ≤ 1 / 200 := by
  have h : |((round (q * 100) : ℤ) : ℚ) - q * 100| ≤ 1 / 2 := by
    have h0 := abs_sub_round (q * 100)
    rwa [abs_sub_comm] at h0
  have heq : round2 q - q = (((round (q * 100) : ℤ) : ℚ) - q * 100) / 100 := by
    rw [round2]; ring
  rw [heq, abs_div, abs_of_pos (by norm_num : (0 : ℚ) < 100)]
  linarith

theorem sum_map_round2_sub_le (l : List ℚ) :
    |(l.map round2).sum - l.sum| ≤ (l.length : ℚ) / 200 := by
  induction l with
  | nil => simp
  | cons a l ih =>
    simp only [List.map_cons, List.sum_cons, List.length_cons]
    have h3 : round2 a + (l.map round2).sum - (a + l.sum)
        = (round2 a - a) + ((l.map round2).sum - l.sum) := by ring
    calc |round2 a + (l.map round2).sum - (a + l.sum)|
        ≤ |round2 a - a| + |(l.map round2).sum - l.sum| := by
          rw [h3]; exact abs_add _ _
      _ ≤ 1 / 200 + (l.length : ℚ) / 200 := add_le_add (round2_sub_le a) ih
      _ = ((l.length + 1 : ℕ) : ℚ) / 200 := by push_cast; ring

end ExpenseApp

namespace ExpenseApp

/-! Helper lemmas about the alert policy. -/

theorem budget_alert_pos (u : User) (ledger : List Expense) (hb : 0 < u.budget) :
    budget_alert u ledger
      = if (u.budget - ledgerSum u.id ledger) / u.budget ≤ 0.20 then
          [{ to_email := u.email,
             subject := "Budget Alert — less than 20% remaining",
             body := "Hi, your remaining budget is ₹"
                      ++ fmt2 (u.budget - ledgerSum u.id ledger)
                      ++ " which is ≤20% of your original budget." }]
        else [] := by
  rw [budget_alert, if_pos ⟨ne_of_gt hb, hb⟩]

theorem budget_alert_congr (u : User) (l1 l2 : List Expense)
    (h : ledgerSum u.id l1 = ledgerSum u.id l2) :
    budget_alert u l1 = budget_alert u l2 := by
  rw [budget_alert, budget_alert, h]

/-- C3: the per-category totals partition the user's expenses with no
double-counting and no omission: the unrounded category totals sum to
exactly the sum of all of the user's raw amounts, and the displayed
total (built from the per-category rounded values) stays within the
rounding tolerance of one half-cent per category of that raw sum. -/
theorem C3_category_partition (u : User) (ledger : List Expense) :
    ((catTotals (ledger.filter (fun e => e.user_id == u.id))).map Prod.snd).sum
      = ((ledger.filter (fun e => e.user_id == u.id)).map (fun e => e.amount)).sum
    ∧ |(dashboard_get u ledger).total_spent
        - ((ledger.filter (fun e => e.user_id == u.id)).map (fun e => e.amount)).sum|
      ≤ ((dashboard_get u ledger).categories.length : ℚ) / 200 := by
  refine ⟨sum_snd_catTotals _, ?_⟩
  have hdg : dashboard_get u ledger
      = dashboard_agg u (ledger.filter (fun e => e.user_id == u.id)) := rfl
  rw [hdg, total_spent_dashboard_agg,
    ← sum_snd_catTotals (ledger.filter (fun e => e.user_id == u.id))]
  by_cases h : catTotals (ledger.filter (fun e => e.user_id == u.id)) = []
  · rw [h, categories_dashboard_agg_nil u _ h]
    simp
  · rw [categories_dashboard_agg_ne u _ h]
    have hmm : (catTotals (ledger.filter (fun e => e.user_id == u.id))).map
          (fun p => round2 p.2)
        = ((catTotals (ledger.filter (fun e => e.user_id == u.id))).map Prod.snd).map round2 :=
      (List.map_map round2 Prod.snd _).symm
    rw [hmm]
    have hb := sum_map_round2_sub_le
      ((catTotals (ledger.filter (fun e => e.user_id == u.id))).map Prod.snd)
    simpa [List.length_map] using hb

/-- C8: a user with zero expenses gets exactly the single placeholder
category entry and a displayed total of 0. -/
theorem C8_empty_placeholder (u : User) (ledger : List Expense)
    (h : ledger.filter (fun e => e.user_id == u.id) = []) :
    (dashboard_get u ledger).categories = ["No expenses"]
    ∧ (dashboard_get u ledger).total_spent = 0 := by
  have hdg : dashboard_get u ledger
      = dashboard_agg u (ledger.filter (fun e => e.user_id == u.id)) := rfl
  rw [hdg, h]
  refine ⟨categories_dashboard_agg_nil u [] rfl, ?_⟩
  rw [total_spent_dashboard_agg]
  simp [catTotals]

/-- Witness for C8 at an empty ledger. -/
theorem C8_empty_placeholder_witness :
    (dashboard_get user0 []).categories = ["No expenses"]
    ∧ (dashboard_get user0 []).total_spent = 0 :=
  C8_empty_placeholder user0 [] rfl

/-- C1: for a user with positive budget, recording an expense fires
exactly one notification if and only if the remaining fraction
`(budget - total)/budget` computed from the unrounded post-insertion
ledger sum is at most 0.20 (a negative remainder included). -/
theorem C1_alert_threshold (u : User) (amount : ℚ) (category note : String) (date : Nat)
    (ledger : List Expense) (cfg : MailConfig) (gw : SmtpOutcome)
    (hb : 0 < u.budget) :
    ((dashboard_post u amount category note date ledger cfg gw).emails.length = 1
      ↔ (u.budget - ledgerSum u.id
            ((dashboard_post u amount category note date ledger cfg gw).ledger))
          / u.budget ≤ 0.20)
    ∧ (dashboard_post u amount category note date ledger cfg gw).emails.length ≤ 1 := by
  have he : (dashboard_post u amount category note date ledger cfg gw).emails
      = budget_alert u (ledger ++ [mkExpense u.id amount category note date]) := rfl
  have hl : (dashboard_post u amount category note date ledger cfg gw).ledger
      = ledger ++ [mkExpense u.id amount category note date] := rfl
  rw [he, hl, budget_alert_pos u _ hb]
  by_cases hc : (u.budget
      - ledgerSum u.id (ledger ++ [mkExpense u.id amount category note date]))
      / u.budget ≤ 0.20
  · simp [hc]
  · simp [hc]

/-- Witness for C1: budget 1000, single expense of 850, ratio 0.15. -/
theorem C1_alert_threshold_witness :
    (0 : ℚ) < user1000.budget
    ∧ (((dashboard_post user1000 850 "Other" "" 0 [] cfg0 .delivered).emails.length = 1
        ↔ (user1000.budget - ledgerSum user1000.id
              ((dashboard_post user1000 850 "Other" "" 0 [] cfg0 .delivered).ledger))
            / user1000.budget ≤ 0.20)
       ∧ (dashboard_post user1000 850 "Other" "" 0 [] cfg0 .delivered).emails.length ≤ 1) :=
  ⟨by norm_num [user1000],
   C1_alert_threshold user1000 850 "Other" "" 0 [] cfg0 .delivered (by norm_num [user1000])⟩

/-- C2: the policy never fails and delivery failure is a no-op: for every
mail configuration and every gateway outcome (unconfigured server,
connection error, auth error, any transport exception, or delivery), the
new expense is in the post-request ledger, the request returns the
normal redirect, and each constructed email gets a (discarded) boolean
result from the total function `send_email`. -/
theorem C2_delivery_no_op (u : User) (amount : ℚ) (category note : String) (date : Nat)
    (ledger : List Expense) (cfg : MailConfig) (gw : SmtpOutcome) :
    (dashboard_post u amount category note date ledger cfg gw).ledger
        = ledger ++ [mkExpense u.id amount category note date]
    ∧ (dashboard_post u amount category note date ledger cfg gw).response
        = "redirect:dashboard"
    ∧ (dashboard_post u amount category note date ledger cfg gw).sendResults.length
        = (dashboard_post u amount category note date ledger cfg gw).emails.length := by
  refine ⟨rfl, rfl, ?_⟩
  simp [dashboard_post]

/-- C5: an unset or non-positive budget reports zero percent used (both
the raw value and the rendered one) and never triggers an alert, for any
total spent; with a positive budget the raw percentage is exactly
`total_spent / budget * 100`. -/
theorem C5_unset_budget_policy (u : User) (ledger : List Expense) (amount : ℚ)
    (category note : String) (date : Nat) (cfg : MailConfig) (gw : SmtpOutcome) :
    (u.budget ≤ 0 →
        (dashboard_get u ledger).percent_used = 0
        ∧ rendered_percent_used (dashboard_get u ledger) = 0
        ∧ (dashboard_post u amount category note date ledger cfg gw).emails = [])
    ∧ (0 < u.budget →
        (dashboard_get u ledger).percent_used
          = (dashboard_get u ledger).total_spent / u.budget * 100) := by
  constructor
  · intro hb
    have hp : (dashboard_get u ledger).percent_used = 0 := by
      simp [dashboard_get, dashboard_agg, not_lt.mpr hb]
    refine ⟨hp, ?_, ?_⟩
    · simp [rendered_percent_used, hp, round1]
    · have he : (dashboard_post u amount category note date ledger cfg gw).emails
          = budget_alert u (ledger ++ [mkExpense u.id amount category note date]) := rfl
      rw [he, budget_alert, if_neg]
      rintro ⟨-, h2⟩
      exact absurd h2 (not_lt.mpr hb)
  · intro hb
    simp [dashboard_get, dashboard_agg, hb]

/-- Witness for C5 at budget 0 and one submitted expense. -/
theorem C5_unset_budget_policy_witness :
    (dashboard_get user0 []).percent_used = 0
    ∧ rendered_percent_used (dashboard_get user0 []) = 0
    ∧ (dashboard_post user0 5 "Other" "" 0 [] cfg0 .delivered).emails = [] :=
  (C5_unset_budget_policy user0 [] 5 "Other" "" 0 cfg0 .delivered).1 (by norm_num [user0])

end ExpenseApp

namespace ExpenseApp

/-- C6: two consecutively recorded qualifying expenses fire one alert
each (two emails total, no suppression), and each decision is taken on
the ledger sum recomputed over the full post-insertion ledger. -/
theorem C6_no_alert_dedup (u : User) (a1 a2 : ℚ) (c1 c2 m1 m2 : String) (d1 d2 : Nat)
    (ledger : List Expense) (cfg : MailConfig) (gw : SmtpOutcome)
    (hb : 0 < u.budget)
    (h1 : (u.budget - ledgerSum u.id (ledger ++ [mkExpense u.id a1 c1 m1 d1]))
        / u.budget ≤ 0.20)
    (h2 : (u.budget - ledgerSum u.id
          (ledger ++ [mkExpense u.id a1 c1 m1 d1, mkExpense u.id a2 c2 m2 d2]))
        / u.budget ≤ 0.20) :
    (dashboard_post u a1 c1 m1 d1 ledger cfg gw).emails.length = 1
    ∧ (dashboard_post u a2 c2 m2 d2
        (dashboard_post u a1 c1 m1 d1 ledger cfg gw).ledger cfg gw).emails.length = 1
    ∧ (dashboard_post u a2 c2 m2 d2
        (dashboard_post u a1 c1 m1 d1 ledger cfg gw).ledger cfg gw).ledger
      = ledger ++ [mkExpense u.id a1 c1 m1 d1, mkExpense u.id a2 c2 m2 d2] := by
  have hassoc : (ledger ++ [mkExpense u.id a1 c1 m1 d1]) ++ [mkExpense u.id a2 c2 m2 d2]
      = ledger ++ [mkExpense u.id a1 c1 m1 d1, mkExpense u.id a2 c2 m2 d2] := by
    simp
  have he1 : (dashboard_post u a1 c1 m1 d1 ledger cfg gw).emails
      = budget_alert u (ledger ++ [mkExpense u.id a1 c1 m1 d1]) := rfl
  have he2 : (dashboard_post u a2 c2 m2 d2
        (dashboard_post u a1 c1 m1 d1 ledger cfg gw).ledger cfg gw).emails
      = budget_alert u
          ((ledger ++ [mkExpense u.id a1 c1 m1 d1]) ++ [mkExpense u.id a2 c2 m2 d2]) := rfl
  have hl2 : (dashboard_post u a2 c2 m2 d2
        (dashboard_post u a1 c1 m1 d1 ledger cfg gw).ledger cfg gw).ledger
      = (ledger ++ [mkExpense u.id a1 c1 m1 d1]) ++ [mkExpense u.id a2 c2 m2 d2] := rfl
  refine ⟨?_, ?_, ?_⟩
  · rw [he1, budget_alert_pos u _ hb, if_pos h1]
    rfl
  · rw [he2, hassoc, budget_alert_pos u _ hb, if_pos h2]
    rfl
  · rw [hl2, hassoc]

/-- Witness for C6: budget 100, expenses 85 then 1, ratios 0.15 and
0.14. -/
theorem C6_no_alert_dedup_witness :
    (dashboard_post user100 85 "Other" "" 0 [] cfg0 .delivered).emails.length = 1
    ∧ (dashboard_post user100 1 "Other" "" 1
        (dashboard_post user100 85 "Other" "" 0 [] cfg0 .delivered).ledger
        cfg0 .delivered).emails.length = 1
    ∧ (dashboard_post user100 1 "Other" "" 1
        (dashboard_post user100 85 "Other" "" 0 [] cfg0 .delivered).ledger
        cfg0 .delivered).ledger
      = [] ++ [mkExpense user100.id 85 "Other" "" 0, mkExpense user100.id 1 "Other" "" 1] :=
  C6_no_alert_dedup user100 85 1 "Other" "Other" "" "" 0 1 [] cfg0 .delivered
    (by norm_num [user100])
    (by norm_num [user100, ledgerSum, mkExpense])
    (by norm_num [user100, ledgerSum, mkExpense])

/-! Helper lemmas about the report renderer. -/

theorem pySlice_length_le (s : String) (n : Nat) : (pySlice s n).length ≤ n := by
  show (s.data.take n).length ≤ n
  rw [List.length_take]
  exact min_le_left _ _

theorem pdf_flatten (es : List Expense) :
    ∀ (pages : List (List String)) (cur : List String) (y : ℤ),
      ((es.foldl pdfStep (pages, cur, y)).1).flatten ++ (es.foldl pdfStep (pages, cur, y)).2.1
        = pages.flatten ++ cur ++ es.map (fun e => pySlice (lineOf e) 90) := by
  induction es with
  | nil =>
    intro pages cur y
    simp
  | cons e es ih =>
    intro pages cur y
    simp only [List.foldl_cons, pdfStep, List.map_cons]
    by_cases hy : y - 20 < 50
    · rw [if_pos hy, ih]
      simp [List.flatten_append]
    · rw [if_neg hy, ih]
      simp

theorem pdf_pages_mono (es : List Expense) :
    ∀ (pages : List (List String)) (cur : List String) (y : ℤ),
      pages.length ≤ ((es.foldl pdfStep (pages, cur, y)).1).length := by
  induction es with
  | nil =>
    intro pages cur y
    simp
  | cons e es ih =>
    intro pages cur y
    simp only [List.foldl_cons, pdfStep]
    by_cases hy : y - 20 < 50
    · rw [if_pos hy]
      calc pages.length ≤ (pages ++ [cur ++ [pySlice (lineOf e) 90]]).length := by simp
        _ ≤ _ := ih _ _ _
    · rw [if_neg hy]
      exact ih _ _ _

theorem pdf_break (es : List Expense) :
    ∀ (pages : List (List String)) (cur : List String) (y : ℤ),
      50 ≤ y → y - 20 * es.length < 50 →
      pages.length + 1 ≤ ((es.foldl pdfStep (pages, cur, y)).1).length := by
  induction es with
  | nil =>
    intro pages cur y hy hlt
    simp only [List.length_nil, Nat.cast_zero, mul_zero, sub_zero] at hlt
    omega
  | cons e es ih =>
    intro pages cur y hy hlt
    simp only [List.foldl_cons, pdfStep]
    by_cases hyb : y - 20 < 50
    · rw [if_pos hyb]
      have hm := pdf_pages_mono es (pages ++ [cur ++ [pySlice (lineOf e) 90]]) [] 750
      simpa using hm
    · rw [if_neg hyb]
      apply ih
      · omega
      · simp only [List.length_cons] at hlt
        push_cast at hlt ⊢
        linarith

end ExpenseApp

namespace ExpenseApp

/-- C7: for a user with at least 60 ledger expenses, the PDF export
draws exactly the capped sequence of truncated body lines (the
most-recent-first ledger read is capped at 50): the body lines across
all pages are, in order, the intact truncated expense lines — so at most
50 of them, none split across a page boundary — laid out on at least 2
pages, each body line at most 90 characters; the renderer is a total
function, so it never throws. -/
theorem C7_report_layout (u : User) (today : String) (ledger : List Expense)
    (h : 60 ≤ (ledger.filter (fun e => e.user_id == u.id)).length) :
    ((export_pdf u today ledger).flatten).drop 2
      = ((List.insertionSort (fun a b => b.date ≤ a.date)
            (ledger.filter (fun e => e.user_id == u.id))).take 50).map
          (fun e => pySlice (lineOf e) 90)
    ∧ (((export_pdf u today ledger).flatten).drop 2).length ≤ 50
    ∧ 2 ≤ (export_pdf u today ledger).length
    ∧ ∀ s ∈ ((export_pdf u today ledger).flatten).drop 2, s.length ≤ 90 := by
  have hlen : ((List.insertionSort (fun a b => b.date ≤ a.date)
      (ledger.filter (fun e => e.user_id == u.id))).take 50).length = 50 := by
    rw [List.length_take]
    have hperm := (List.perm_insertionSort (fun a b => b.date ≤ a.date)
      (ledger.filter (fun e => e.user_id == u.id))).length_eq
    omega
  have hexp : export_pdf u today ledger
      = (((List.insertionSort (fun a b => b.date ≤ a.date)
            (ledger.filter (fun e => e.user_id == u.id))).take 50).foldl pdfStep
          ([], headerLines u today, (690 : ℤ))).1
        ++ [(((List.insertionSort (fun a b => b.date ≤ a.date)
            (ledger.filter (fun e => e.user_id == u.id))).take 50).foldl pdfStep
          ([], headerLines u today, (690 : ℤ))).2.1] := rfl
  have hflat : (export_pdf u today ledger).flatten
      = headerLines u today
        ++ ((List.insertionSort (fun a b => b.date ≤ a.date)
              (ledger.filter (fun e => e.user_id == u.id))).take 50).map
            (fun e => pySlice (lineOf e) 90) := by
    rw [hexp, List.flatten_append]
    have hpf := pdf_flatten ((List.insertionSort (fun a b => b.date ≤ a.date)
      (ledger.filter (fun e => e.user_id == u.id))).take 50) [] (headerLines u today) 690
    simpa using hpf
  have hdrop : ((export_pdf u today ledger).flatten).drop 2
      = ((List.insertionSort (fun a b => b.date ≤ a.date)
            (ledger.filter (fun e => e.user_id == u.id))).take 50).map
          (fun e => pySlice (lineOf e) 90) := by
    rw [hflat]
    have h2 : (headerLines u today).length = 2 := rfl
    rw [← h2, List.drop_left]
  refine ⟨hdrop, ?_, ?_, ?_⟩
  · rw [hdrop, List.length_map, hlen]
  · rw [hexp]
    have hbrk := pdf_break ((List.insertionSort (fun a b => b.date ≤ a.date)
        (ledger.filter (fun e => e.user_id == u.id))).take 50)
      [] (headerLines u today) 690 (by norm_num)
      (by rw [hlen]; norm_num)
    simp only [List.length_append, List.length_cons, List.length_nil] at hbrk ⊢
    omega
  · intro s hs
    rw [hdrop] at hs
    obtain ⟨e, he, rfl⟩ := List.mem_map.mp hs
    exact pySlice_length_le _ _

/-- Witness for C7 on a 60-expense ledger owned by user 1: the report
spans at least two pages. -/
theorem C7_report_layout_witness :
    60 ≤ (bigLedger.filter (fun e => e.user_id == user1000.id)).length
    ∧ 2 ≤ (export_pdf user1000 "2026-10-12" bigLedger).length :=
  ⟨by decide,
   (C7_report_layout user1000 "2026-10-12" bigLedger (by decide)).2.2.1⟩

end ExpenseApp

namespace ExpenseApp

/-- C4 counterexample: with two tiny expenses of 0.004 in distinct
categories, the displayed total (sum of per-category rounded totals) is
0, while the raw sum 0.008 rounded to 2 decimal places is 0.01 — the
displayed `totalSpent` is not the rounded raw sum. -/
theorem C4_display_total_counterexample :
    (dashboard_get user0 tinyLedger).total_spent
      ≠ round2 (((tinyLedger.filter (fun e => e.user_id == user0.id)).map
          (fun e => e.amount)).sum) := by
  have hfil : tinyLedger.filter (fun e => e.user_id == user0.id) = tinyLedger := rfl
  have hts : (dashboard_get user0 tinyLedger).total_spent
      = ((catTotals tinyLedger).map (fun p => round2 p.2)).sum := by
    have h0 := total_spent_dashboard_agg user0
      (tinyLedger.filter (fun e => e.user_id == user0.id))
    rw [hfil] at h0
    exact h0
  have hcat : catTotals tinyLedger = [("A", 4/1000), ("B", 4/1000)] := rfl
  rw [hts, hfil, hcat]
  simp only [List.map_cons, List.map_nil, List.sum_cons, List.sum_nil, tinyLedger, mkExpense]
  norm_num [round2, round_eq]

/-- C4 as amended: the displayed `totalSpent` is the sum of the
per-category totals each rounded to 2 decimal places (not the rounded
raw sum), while the alert comparison depends only on the unrounded
post-insertion ledger sum: two ledgers with the same unrounded sum for
the user produce the same alert decision. -/
theorem C4_display_vs_alert_total (u : User) (ledger l2 : List Expense) (amount : ℚ)
    (category note : String) (date : Nat) (cfg : MailConfig) (gw : SmtpOutcome)
    (h : ledgerSum u.id (ledger ++ [mkExpense u.id amount category note date])
        = ledgerSum u.id (l2 ++ [mkExpense u.id amount category note date])) :
    (dashboard_get u ledger).total_spent
      = ((catTotals (ledger.filter (fun e => e.user_id == u.id))).map
          (fun p => round2 p.2)).sum
    ∧ (dashboard_post u amount category note date ledger cfg gw).emails
      = (dashboard_post u amount category note date l2 cfg gw).emails := by
  refine ⟨total_spent_dashboard_agg u _, ?_⟩
  show budget_alert u (ledger ++ [mkExpense u.id amount category note date])
      = budget_alert u (l2 ++ [mkExpense u.id amount category note date])
  exact budget_alert_congr u _ _ h

/-- Witness for C4 as amended: a foreign user's row does not change the
user's ledger sum, hence not the alert decision. -/
theorem C4_display_vs_alert_total_witness :
    (dashboard_get user1000 []).total_spent
      = ((catTotals (([] : List Expense).filter (fun e => e.user_id == user1000.id))).map
          (fun p => round2 p.2)).sum
    ∧ (dashboard_post user1000 5 "Other" "" 0 [] cfg0 .delivered).emails
      = (dashboard_post user1000 5 "Other" "" 0 [mkExpense 2 50 "X" "" 0]
          cfg0 .delivered).emails :=
  C4_display_vs_alert_total user1000 [] [mkExpense 2 50 "X" "" 0] 5 "Other" "" 0
    cfg0 .delivered (by norm_num [ledgerSum, mkExpense, user1000])

/-- C9 counterexample: starting from a freshly registered user (budget
0), submitting -100 to the budget-update operation stores a negative
budget — the non-negativity invariant is not preserved for every
submitted amount. -/
theorem C9_negative_budget_counterexample :
    (set_budget (register 1 "user@example.com" "hash") (-100)).budget < 0 := by
  norm_num [set_budget, register]

/-- C9 as amended: registration initialises the budget to 0, and the
budget-update operation stores the submitted amount unvalidated, so the
non-negativity invariant holds exactly when every submitted budget
amount is non-negative (no other operation modifies the budget). -/
theorem C9_budget_invariant_amended (id : Nat) (email password : String) (u : User)
    (b : ℚ) (hb : 0 ≤ b) :
    (register id email password).budget = 0
    ∧ (set_budget u b).budget = b
    ∧ 0 ≤ (set_budget u b).budget :=
  ⟨rfl, rfl, hb⟩

/-- Witness for the amended C9 with a non-negative submission. -/
theorem C9_budget_invariant_amended_witness :
    (register 1 "user@example.com" "hash").budget = 0
    ∧ (set_budget user0 5).budget = 5
    ∧ 0 ≤ (set_budget user0 5).budget :=
  C9_budget_invariant_amended 1 "user@example.com" "hash" user0 5 (by norm_num)

/-- C10: per-user noninterference — if two ledger states agree on user
A's rows (in particular, if they differ only in another user's rows),
then A's dashboard aggregation, A's alert decision on a new expense, and
A's PDF export are identical. -/
theorem C10_noninterference (u : User) (l1 l2 : List Expense) (today : String)
    (amount : ℚ) (category note : String) (date : Nat) (cfg : MailConfig)
    (gw : SmtpOutcome)
    (h : l1.filter (fun e => e.user_id == u.id) = l2.filter (fun e => e.user_id == u.id)) :
    dashboard_get u l1 = dashboard_get u l2
    ∧ (dashboard_post u amount category note date l1 cfg gw).emails
        = (dashboard_post u amount category note date l2 cfg gw).emails
    ∧ export_pdf u today l1 = export_pdf u today l2 := by
  refine ⟨?_, ?_, ?_⟩
  · show dashboard_agg u (l1.filter (fun e => e.user_id == u.id))
        = dashboard_agg u (l2.filter (fun e => e.user_id == u.id))
    rw [h]
  · show budget_alert u (l1 ++ [mkExpense u.id amount category note date])
        = budget_alert u (l2 ++ [mkExpense u.id amount category note date])
    apply budget_alert_congr
    rw [ledgerSum, ledgerSum, List.filter_append, List.filter_append, h]
  · show report_pages u today (l1.filter (fun e => e.user_id == u.id))
        = report_pages u today (l2.filter (fun e => e.user_id == u.id))
    rw [h]

/-- Witness for C10: adding a row owned by user 2 leaves user 1's
dashboard, alert decision and export unchanged. -/
theorem C10_noninterference_witness :
    dashboard_get user1000 [] = dashboard_get user1000 [mkExpense 2 5 "X" "" 0]
    ∧ (dashboard_post user1000 5 "Other" "" 0 [] cfg0 .delivered).emails
        = (dashboard_post user1000 5 "Other" "" 0 [mkExpense 2 5 "X" "" 0]
            cfg0 .delivered).emails
    ∧ export_pdf user1000 "2026-10-12" []
        = export_pdf user1000 "2026-10-12" [mkExpense 2 5 "X" "" 0] :=
  C10_noninterference user1000 [] [mkExpense 2 5 "X" "" 0] "2026-10-12" 5 "Other" "" 0
    cfg0 .delivered rfl

end ExpenseApp
